import Mathlib

/-!
# Chat-IA: news scheduler and news service

A shallow embedding of `src/newsScheduler.js` and `src/newsService.js`.

* Module-level state (`subscribedUsers`, `subscribedGroups`, `failedAttempts`,
  `newsCache`) is a `World` record that is passed explicitly.
* Every interaction with the outside (an outbound `client.sendMessage`, the
  HTTP request, `Date.now()`, `Math.random()`, a pacing `setTimeout`) appends
  an `Event` to `World.trace`; what the outside answers is an oracle that may
  depend on the whole trace so far, so a theorem quantified over the oracle
  covers every behaviour of the transport, provider and upstream API.
* A JavaScript exception is the `error` outcome of the effect type `Eff`;
  state changes made before a `throw` persist, as in JavaScript.
* `Math.random()` is an exact rational in `[0, 1)` and the product with the
  pool bound is exact; `count` arguments are natural numbers.
-/

namespace ChatIA

/-! ## Data model -/

/-- Chat identifiers are opaque strings. -/
abbrev ChatId := String

/-- A news item as produced by `getGNewsArticles` / `getExampleNews`.
`urlToImage` is `none` for `null`/`undefined`. -/
structure NewsItem where
  title : String
  description : String
  url : String
  urlToImage : Option String
  source : String
  publishedAt : String
deriving DecidableEq, Repr

/-- The second argument of `client.sendMessage`: a plain string, or an object
`{ caption, image: { url } }`. -/
inductive Content where
  | text (body : String)
  | media (caption : String) (imageUrl : String)
deriving DecidableEq, Repr

/-- A thrown JavaScript error (only its message is kept). -/
structure Err where
  message : String
deriving DecidableEq, Repr

/-- Observable interactions, in the order they happen. -/
inductive Event where
  /-- entry of `sendNewsToChat` (the log line at its first statement) -/
  | deliver (chatId : ChatId) (isGroup : Bool)
  /-- the log line of `sendNewsToChat` right before its `return true` -/
  | delivered (chatId : ChatId) (isGroup : Bool)
  /-- a call of an abstract news provider standing for `getTechNews(count)` -/
  | provider (count : Nat)
  /-- a read of `Date.now()` -/
  | dateNow (t : Int)
  /-- a read of `new Date().toLocaleString()` -/
  | localeString (s : String)
  /-- the HTTP request of `getGNewsArticles(topic, limit)` -/
  | httpGet (topic : String) (limit : Nat)
  /-- a draw of `Math.random()` -/
  | random (r : ℚ)
  /-- an attempted `client.sendMessage(chatId, content)`, with its outcome -/
  | send (chatId : ChatId) (content : Content) (ok : Bool)
  /-- a pacing wait `setTimeout(resolve, ms)` -/
  | wait (ms : Nat)
deriving DecidableEq

/-- One slot of `newsCache`: `data` is `null` (`none`) or an array. -/
structure CacheSlot where
  data : Option (List NewsItem)
  timestamp : Int
deriving DecidableEq

/-- The `lastQuery` slot of `newsCache`. -/
structure QuerySlot where
  query : String
  data : Option (List NewsItem)
  timestamp : Int
deriving DecidableEq

/-- The object `newsCache` of `newsService.js`. -/
structure NewsCache where
  technology : CacheSlot
  lastQuery : QuerySlot
deriving DecidableEq

/-- Module state of both files plus the trace of interactions.
The two `Set`s are lists in insertion order; `failedAttempts` is the `Map`. -/
structure World where
  subscribedUsers : List ChatId
  subscribedGroups : List ChatId
  failedAttempts : ChatId → Option Nat
  newsCache : NewsCache
  trace : List Event

/-- The state right after both modules are loaded. -/
def World.initial : World where
  subscribedUsers := []
  subscribedGroups := []
  failedAttempts := fun _ => none
  newsCache := { technology := { data := none, timestamp := 0 },
                 lastQuery := { query := "", data := none, timestamp := 0 } }
  trace := []

/-! ## Effects -/

/-- A computation that may change the world and may throw. -/
def Eff (α : Type) : Type := World → Except Err α × World

/-- Return a value, world unchanged. -/
def Eff.pure {α : Type} (a : α) : Eff α := fun w => (Except.ok a, w)

/-- Sequencing: an error skips the continuation and keeps the world reached. -/
def Eff.bind {α β : Type} (m : Eff α) (f : α → Eff β) : Eff β := fun w =>
  match m w with
  | (Except.ok a, w1) => f a w1
  | (Except.error e, w1) => (Except.error e, w1)

/-- A JavaScript `throw`. -/
def Eff.throw {α : Type} (e : Err) : Eff α := fun w => (Except.error e, w)

/-- A JavaScript `try { m } catch (e) { h e }`. -/
def Eff.tryCatch {α : Type} (m : Eff α) (h : Err → Eff α) : Eff α := fun w =>
  match m w with
  | (Except.ok a, w1) => (Except.ok a, w1)
  | (Except.error e, w1) => h e w1

instance : Monad Eff where
  pure := Eff.pure
  bind := Eff.bind

instance : MonadExcept Err Eff where
  throw := Eff.throw
  tryCatch := Eff.tryCatch

/-- The world with one more event at the end of the trace. -/
def World.log (w : World) (e : Event) : World :=
  { w with trace := w.trace ++ [e] }

/-- Append one event to the trace. -/
def emit (e : Event) : Eff Unit := fun w => (Except.ok (), w.log e)

/-- Read the world. -/
def getWorld : Eff World := fun w => (Except.ok w, w)

/-- The messaging client: given the trace so far, the chat and the content,
either the send resolves (`none`) or it rejects with an error. -/
abbrev Client := List Event → ChatId → Content → Option Err

/-- The call `await client.sendMessage(chatId, content)`. -/
def sendMessage (client : Client) (chatId : ChatId) (content : Content) : Eff Unit := fun w =>
  match client w.trace chatId content with
  | none => (Except.ok (), w.log (Event.send chatId content true))
  | some e => (Except.error e, w.log (Event.send chatId content false))

/-- The call `await new Promise(resolve => setTimeout(resolve, ms))`. -/
def sleep (ms : Nat) : Eff Unit := emit (Event.wait ms)

/-- The source of `Math.random()`: a value in `[0, 1)` for every history. -/
structure Rng where
  draw : List Event → ℚ
  draw_nonneg : ∀ h, 0 ≤ draw h
  draw_lt_one : ∀ h, draw h < 1

/-- The call `Math.random()`. -/
def mathRandom (rng : Rng) : Eff ℚ := fun w =>
  (Except.ok (rng.draw w.trace), w.log (Event.random (rng.draw w.trace)))

/-- What a news provider hands to `sendNewsToChat`: `none` stands for
`null`/`undefined`; array elements may be falsy (`none`). -/
abbrev Pool := Option (List (Option NewsItem))

/-- An abstract provider: its outcome is any function of the history. -/
abbrev Provider := List Event → Except Err Pool

/-- The call `await getTechNews(count)` against an abstract provider. -/
def Provider.call (p : Provider) (count : Nat) : Eff Pool := fun w =>
  (p w.trace, w.log (Event.provider count))

/-! ## newsScheduler.js -/

/-- The constant `MAX_FAILED_ATTEMPTS`. -/
def MAX_FAILED_ATTEMPTS : Nat := 3

/-- The world after `registerFailedAttempt(chatId)`: the entry becomes
`(failedAttempts.get(chatId) || 0) + 1`. -/
def World.bump (w : World) (chatId : ChatId) : World :=
  { w with failedAttempts :=
      Function.update w.failedAttempts chatId (some ((w.failedAttempts chatId).getD 0 + 1)) }

/-- The world after `if (failedAttempts.has(chatId)) failedAttempts.delete(chatId)`. -/
def World.clear (w : World) (chatId : ChatId) : World :=
  if (w.failedAttempts chatId).isSome then
    { w with failedAttempts := Function.update w.failedAttempts chatId none }
  else w

/-- Model of `registerFailedAttempt(chatId)`. The warning at the maximum is a log line only. -/
def registerFailedAttempt (chatId : ChatId) : Eff Unit := fun w =>
  (Except.ok (), w.bump chatId)

/-- The statement `if (failedAttempts.has(chatId)) failedAttempts.delete(chatId)`. -/
def clearFailedAttempts (chatId : ChatId) : Eff Unit := fun w =>
  (Except.ok (), w.clear chatId)

/-- The notice sent when the pool is empty. -/
def poolEmptyNotice : String :=
  "*Error al obtener noticias*\n\n" ++
  "Lo sentimos, no pudimos obtener noticias en este momento. " ++
  "Esto puede deberse a problemas con la API de noticias o la conexión a internet. " ++
  "Por favor, intenta más tarde escribiendo \"noticias\" manualmente."

/-- The notice sent from the top-level `catch`. -/
def sendErrorNotice : String :=
  "*Error al enviar noticias*\n\n" ++
  "Lo sentimos, hubo un problema al enviar noticias automáticas. " ++
  "Puedes probar a solicitar noticias manualmente escribiendo \"noticias\"."

/-- The string `newsTitle + newsContent` built by `sendNewsToChat`. -/
def newsText (newsItem : NewsItem) (isGroup : Bool) : String :=
  let chatType := if isGroup then "grupo" else "chat"
  let newsTitle := "*" ++ newsItem.title ++ "*\n\n"
  let newsContent :=
    newsItem.description ++ "\n\n" ++
    "Fuente: " ++ newsItem.source ++ "\n" ++
    "Publicado: " ++ newsItem.publishedAt ++ "\n" ++
    newsItem.url ++ "\n\n" ++
    "_Este es un envío automático a este " ++ chatType ++
    ". Para más noticias, escribe \"noticias\" o \"buscar [término]\"_"
  newsTitle ++ newsContent

/-- The index `Math.floor(Math.random() * Math.min(allNews.length, 5))`. -/
def randomIndex (r : ℚ) (length : Nat) : Int := ⌊r * ((min length 5 : Nat) : ℚ)⌋

/-- JavaScript array indexing `xs[i]`: `undefined` outside the array. -/
def jsIndex {α : Type} (xs : List α) (i : Int) : Option α :=
  if 0 ≤ i then xs[i.toNat]? else none

/-- JavaScript truthiness of an optional string (`if (newsItem.urlToImage)`). -/
def truthy (s : Option String) : Bool :=
  match s with
  | none => false
  | some u => u != ""

/-- The top-level `catch (error)` block of `sendNewsToChat`: count the failure, try to
notify the chat (a failing notice is only logged), return `false`. -/
def sendNewsToChat.onError (client : Client) (chatId : ChatId) (_error : Err) : Eff Bool := do
  registerFailedAttempt chatId
  tryCatch
    (sendMessage client chatId (Content.text sendErrorNotice))
    (fun _ => pure ())
  return false

/-- Model of `sendNewsToChat(client, chatId, isGroup)`; `getTechNews` is the imported
provider function and `rng` the source of `Math.random()`. -/
def sendNewsToChat (getTechNews : Nat → Eff Pool) (rng : Rng) (client : Client)
    (chatId : ChatId) (isGroup : Bool) : Eff Bool :=
  tryCatch
    (do
      emit (Event.deliver chatId isGroup)
      let fetched ← getTechNews 10
      match fetched with
      | none =>
        -- `allNews.length` on `null`/`undefined` throws a TypeError
        throw (Err.mk "TypeError: cannot read properties of null")
      | some allNews =>
        if allNews.length = 0 then do
          registerFailedAttempt chatId
          sendMessage client chatId (Content.text poolEmptyNotice)
          return false
        else do
          let r ← mathRandom rng
          match (jsIndex allNews (randomIndex r allNews.length)).join with
          | none => do
            registerFailedAttempt chatId
            return false
          | some newsItem => do
            clearFailedAttempts chatId
            if truthy newsItem.urlToImage then
              tryCatch
                (sendMessage client chatId
                  (Content.media (newsText newsItem isGroup) (newsItem.urlToImage.getD "")))
                (fun _ => sendMessage client chatId (Content.text (newsText newsItem isGroup)))
            else
              sendMessage client chatId (Content.text (newsText newsItem isGroup))
            emit (Event.delivered chatId isGroup)
            return true)
    (sendNewsToChat.onError client chatId)

/-- One of the two loops of `broadcastNews`: `for (const id of set)` with its
`try`/`catch`, carrying `(sentCount, errorCount)`. The pacing wait cannot reject, so the
`catch` can only be entered from `sendNewsToChat`, before either counter is touched. -/
def broadcastLoop (getTechNews : Nat → Eff Pool) (rng : Rng) (client : Client)
    (isGroup : Bool) : List ChatId → Nat × Nat → Eff (Nat × Nat)
  | [], counts => pure counts
  | chatId :: rest, (sentCount, errorCount) => do
    let counts ← tryCatch
      (do
        let success ← sendNewsToChat getTechNews rng client chatId isGroup
        let counts := if success then (sentCount + 1, errorCount) else (sentCount, errorCount + 1)
        sleep 1000
        pure counts)
      (fun _ => pure (sentCount, errorCount + 1))
    broadcastLoop getTechNews rng client isGroup rest counts

/-- Model of `broadcastNews(client)`. -/
def broadcastNews (getTechNews : Nat → Eff Pool) (rng : Rng) (client : Client) : Eff Nat := do
  let w ← getWorld
  let totalSubscribers := w.subscribedUsers.length + w.subscribedGroups.length
  if totalSubscribers = 0 then
    return 0
  else do
    let counts ← broadcastLoop getTechNews rng client false w.subscribedUsers (0, 0)
    let counts ← broadcastLoop getTechNews rng client true w.subscribedGroups counts
    return counts.1

/-! ## newsService.js -/

/-- An article of the GNews response, as far as `getGNewsArticles` reads it.
`description` and `image` are `none` for `null`/`undefined`; `publishedAt` is the
string that `new Date(article.publishedAt).toLocaleString()` yields. -/
structure Article where
  title : String
  description : Option String
  url : String
  image : Option String
  sourceName : String
  publishedAt : String
deriving DecidableEq, Repr

/-- The outside of `newsService.js`: the configuration flag `NEWS_API.enabled`, the
clock, and the HTTP endpoint. `httpGet` answers an error (the request or the reading
of the response throws), `none` (no `articles` field) or the articles. -/
structure Upstream where
  enabled : Bool
  now : List Event → Int
  localeNow : List Event → String
  httpGet : List Event → String → Nat → Except Err (Option (List Article))

/-- The constant `CACHE_EXPIRY = 30 * 60 * 1000` (milliseconds). -/
def CACHE_EXPIRY : Int := 30 * 60 * 1000

/-- The call `Date.now()`. -/
def dateNow (up : Upstream) : Eff Int := fun w =>
  (Except.ok (up.now w.trace), w.log (Event.dateNow (up.now w.trace)))

/-- The call `new Date().toLocaleString()`. -/
def localeNow (up : Upstream) : Eff String := fun w =>
  (Except.ok (up.localeNow w.trace), w.log (Event.localeString (up.localeNow w.trace)))

/-- The call `await axios.get(url)` together with the reading of `response.data.articles`;
the URL is determined by `topic` and `limit`. -/
def httpGet (up : Upstream) (topic : String) (limit : Nat) : Eff (Option (List Article)) :=
  fun w => (up.httpGet w.trace topic limit, w.log (Event.httpGet topic limit))

/-- The object literal built by the `map` callback of `getGNewsArticles`. -/
def Article.toNewsItem (article : Article) : NewsItem where
  title := article.title
  description := if truthy article.description then article.description.getD ""
    else "No hay descripción disponible"
  url := article.url
  urlToImage := article.image
  source := article.sourceName
  publishedAt := article.publishedAt

/-- Model of `getGNewsArticles(topic, limit)`; its `catch` logs and rethrows. -/
def getGNewsArticles (up : Upstream) (topic : String) (limit : Nat) : Eff (List NewsItem) :=
  tryCatch
    (do
      let articles ← httpGet up topic limit
      match articles with
      | none => return []
      | some articles =>
        if articles.length = 0 then return []
        else return articles.map Article.toNewsItem)
    (fun error => throw error)

/-- The array literal of `getExampleNews`, for a given suffix and timestamp string. -/
def exampleNews (queryText : String) (now : String) : List NewsItem :=
  [ { title := "Últimos avances en inteligencia artificial" ++ queryText
      description := "Nuevos modelos de IA prometen revolucionar la forma en que interactuamos con la tecnología."
      url := "https://ejemplo.com/noticia1"
      urlToImage := some "https://via.placeholder.com/800x400?text=Inteligencia+Artificial"
      source := "Tech News"
      publishedAt := now },
    { title := "El futuro de los smartphones" ++ queryText
      description := "Los fabricantes apuestan por pantallas plegables y mayor durabilidad de la batería."
      url := "https://ejemplo.com/noticia2"
      urlToImage := some "https://via.placeholder.com/800x400?text=Smartphones"
      source := "Mobile World"
      publishedAt := now },
    { title := "Avances en computación cuántica" ++ queryText
      description := "Los investigadores logran mantener la estabilidad cuántica por más tiempo."
      url := "https://ejemplo.com/noticia3"
      urlToImage := some "https://via.placeholder.com/800x400?text=Computacion+Cuantica"
      source := "Quantum News"
      publishedAt := now },
    { title := "Nuevas tendencias en desarrollo web" ++ queryText
      description := "Frameworks y tecnologías que dominarán el desarrollo web en los próximos años."
      url := "https://ejemplo.com/noticia4"
      urlToImage := some "https://via.placeholder.com/800x400?text=Desarrollo+Web"
      source := "Web Dev Magazine"
      publishedAt := now },
    { title := "La revolución del IoT" ++ queryText
      description := "Cómo el Internet de las Cosas está transformando nuestros hogares y ciudades."
      url := "https://ejemplo.com/noticia5"
      urlToImage := some "https://via.placeholder.com/800x400?text=IoT"
      source := "IoT Today"
      publishedAt := now } ]

/-- The suffix `queryText` of `getExampleNews`: empty for a falsy (empty) query. -/
def queryText (query : String) : String :=
  if query != "" then " sobre " ++ query else ""

/-- Model of `getExampleNews(query)`. -/
def getExampleNews (up : Upstream) (query : String) : Eff (List NewsItem) := do
  let now ← localeNow up
  return exampleNews (queryText query) now

/-- The cache test `data && (now - timestamp < CACHE_EXPIRY)`. -/
def cacheFresh (data : Option (List NewsItem)) (timestamp now : Int) : Bool :=
  data.isSome && decide (now - timestamp < CACHE_EXPIRY)

/-- The assignment `newsCache.technology = { data: news, timestamp: now }`. -/
def setTechnologyCache (news : List NewsItem) (now : Int) : Eff Unit := fun w =>
  (Except.ok (), { w with newsCache :=
    { w.newsCache with technology := { data := some news, timestamp := now } } })

/-- The assignment `newsCache.lastQuery = { query, data: news, timestamp: now }`. -/
def setLastQueryCache (query : String) (news : List NewsItem) (now : Int) : Eff Unit := fun w =>
  (Except.ok (), { w with newsCache :=
    { w.newsCache with lastQuery := { query := query, data := some news, timestamp := now } } })

/-- The error of the outer `catch` blocks, which read the block-scoped `limit`
of the `try` block. -/
def limitNotDefined : Err := Err.mk "ReferenceError: limit is not defined"

/-- Model of `getTechNews(count)`. -/
def getTechNews (up : Upstream) (count : Nat) : Eff (List NewsItem) :=
  tryCatch
    (do
      let limit := min count 10
      let now ← dateNow up
      let w ← getWorld
      if cacheFresh w.newsCache.technology.data w.newsCache.technology.timestamp now then
        return (w.newsCache.technology.data.getD []).take limit
      else if !up.enabled then do
        let fallback ← getExampleNews up ""
        return fallback.take limit
      else
        tryCatch
          (do
            let news ← getGNewsArticles up "technology" limit
            if news.length > 0 then do
              setTechnologyCache news now
              return news.take limit
            else do
              let fallback ← getExampleNews up ""
              return fallback.take limit)
          (fun _ => do
            let fallback ← getExampleNews up ""
            return fallback.take limit))
    (fun _ => do
      let _ ← getExampleNews up ""
      throw limitNotDefined)

/-- Whether an event is an attempted outbound send. -/
def Event.isSend : Event → Bool
  | Event.send _ _ _ => true
  | _ => false

/-- Whether an event is an attempted image+caption send. -/
def Event.isMediaSend : Event → Bool
  | Event.send _ (Content.media _ _) _ => true
  | _ => false

/-- Whether an event is the success log line of `sendNewsToChat`. -/
def Event.isDelivered : Event → Bool
  | Event.delivered _ _ => true
  | _ => false

/-- The invocation of `sendNewsToChat` an event records, if it is one. -/
def Event.delivery : Event → Option (ChatId × Bool)
  | Event.deliver c g => some (c, g)
  | _ => none

/-- Number of attempted outbound sends in a trace. -/
def sendCount (tr : List Event) : Nat := tr.countP Event.isSend

/-- Number of attempted image+caption sends in a trace. -/
def mediaSendCount (tr : List Event) : Nat := tr.countP Event.isMediaSend

/-- Number of `sendNewsToChat` calls in a trace that returned `true`. -/
def successCount (tr : List Event) : Nat := tr.countP Event.isDelivered

/-- The `sendNewsToChat` invocations of a trace, in order, as `(chatId, isGroup)`. -/
def deliveries (tr : List Event) : List (ChatId × Bool) := tr.filterMap Event.delivery

/-- Number of HTTP requests to the upstream API in a trace. -/
def upstreamCalls (tr : List Event) : Nat :=
  tr.countP (fun e => match e with
    | Event.httpGet _ _ => true
    | _ => false)

/-! ## Closed form of one delivery -/

/-- The world after the top-level `catch` block of `sendNewsToChat`. -/
def afterError (client : Client) (c : ChatId) (w : World) : World :=
  (w.bump c).log (Event.send c (Content.text sendErrorNotice)
    (client w.trace c (Content.text sendErrorNotice)).isNone)

/-- The result and final world of `sendNewsToChat`, by cases on what the provider, the
random source and the client answer (proved equal to the code in `sendNewsToChat_eq`). -/
def deliveryOutcome (getTechNews : Nat → Eff Pool) (rng : Rng) (client : Client) (c : ChatId)
    (g : Bool) (w : World) : Bool × World :=
  let fetched := getTechNews 10 (w.log (Event.deliver c g))
  let w2 := fetched.2
  match fetched.1 with
  | Except.error _ => (false, afterError client c w2)
  | Except.ok none => (false, afterError client c w2)
  | Except.ok (some allNews) =>
    if allNews.length = 0 then
      match client w2.trace c (Content.text poolEmptyNotice) with
      | none => (false, (w2.bump c).log (Event.send c (Content.text poolEmptyNotice) true))
      | some _ =>
        (false, afterError client c
          ((w2.bump c).log (Event.send c (Content.text poolEmptyNotice) false)))
    else
      let w3 := w2.log (Event.random (rng.draw w2.trace))
      match (jsIndex allNews (randomIndex (rng.draw w2.trace) allNews.length)).join with
      | none => (false, w3.bump c)
      | some item =>
        let w4 := w3.clear c
        let media := Content.media (newsText item g) (item.urlToImage.getD "")
        let text := Content.text (newsText item g)
        if truthy item.urlToImage then
          match client w4.trace c media with
          | none => (true, (w4.log (Event.send c media true)).log (Event.delivered c g))
          | some _ =>
            let w5 := w4.log (Event.send c media false)
            match client w5.trace c text with
            | none => (true, (w5.log (Event.send c text true)).log (Event.delivered c g))
            | some _ => (false, afterError client c (w5.log (Event.send c text false)))
        else
          match client w4.trace c text with
          | none => (true, (w4.log (Event.send c text true)).log (Event.delivered c g))
          | some _ => (false, afterError client c (w4.log (Event.send c text false)))

/-! ## Concrete inputs -/

/-- A random source that always draws `0`. -/
def zeroRng : Rng where
  draw := fun _ => 0
  draw_nonneg := fun _ => le_refl 0
  draw_lt_one := fun _ => zero_lt_one

/-- A client whose every send resolves. -/
def reliableClient : Client := fun _ _ _ => none

/-- A client whose every send rejects. -/
def offlineClient : Client := fun _ _ _ => some (Err.mk "offline")

/-- A news item without an image. -/
def plainItem : NewsItem where
  title := "T"
  description := "D"
  url := "U"
  urlToImage := none
  source := "S"
  publishedAt := "P"

/-- An abstract provider that always returns the given pool. -/
def constProvider (pool : List (Option NewsItem)) : Provider := fun _ => Except.ok (some pool)

/-- The world with `newsCache.technology` replaced. -/
def World.setTechnology (w : World) (news : List NewsItem) (now : Int) : World :=
  { w with newsCache :=
    { w.newsCache with technology := { data := some news, timestamp := now } } }

/-- The world with `newsCache.lastQuery` replaced. -/
def World.setLastQuery (w : World) (query : String) (news : List NewsItem) (now : Int) : World :=
  { w with newsCache :=
    { w.newsCache with lastQuery := { query := query, data := some news, timestamp := now } } }

/-- The set after `Set.prototype.add(x)`: unchanged when `x` is already a member,
otherwise `x` becomes the last entry in iteration order. -/
def setAdd (s : List ChatId) (x : ChatId) : List ChatId :=
  if x ∈ s then s else s ++ [x]

/-- The set after `Set.prototype.delete(x)`: the entry equal to `x` is gone, the others
keep their order. -/
def setDelete (s : List ChatId) (x : ChatId) : List ChatId :=
  s.filter (fun y => y != x)

/-- The test `Set.prototype.has(x)`. -/
def setHas (s : List ChatId) (x : ChatId) : Bool := s.contains x

/-- The statement `subscribedUsers.add(userId)`. -/
def addSubscribedUser (userId : ChatId) : Eff Unit := fun w =>
  (Except.ok (), { w with subscribedUsers := setAdd w.subscribedUsers userId })

/-- The statement `subscribedGroups.add(groupId)`. -/
def addSubscribedGroup (groupId : ChatId) : Eff Unit := fun w =>
  (Except.ok (), { w with subscribedGroups := setAdd w.subscribedGroups groupId })

/-- Model of `subscribeUser(userId, sendImmediate, client)`; a `null` client is `none`. -/
def subscribeUser (getTechNews : Nat → Eff Pool) (rng : Rng) (userId : ChatId)
    (sendImmediate : Bool) (client : Option Client) : Eff Bool := do
  addSubscribedUser userId
  match sendImmediate, client with
  | true, some client => do
    let _ ← sendNewsToChat getTechNews rng client userId false
    return true
  | _, _ => return true

/-- Model of `subscribeGroup(groupId, sendImmediate, client)`; a `null` client is `none`. -/
def subscribeGroup (getTechNews : Nat → Eff Pool) (rng : Rng) (groupId : ChatId)
    (sendImmediate : Bool) (client : Option Client) : Eff Bool := do
  addSubscribedGroup groupId
  match sendImmediate, client with
  | true, some client => do
    let _ ← sendNewsToChat getTechNews rng client groupId true
    return true
  | _, _ => return true

/-- Model of `unsubscribeUser(userId)`: `delete` answers whether the entry existed. -/
def unsubscribeUser (userId : ChatId) : Eff Bool := fun w =>
  (Except.ok (setHas w.subscribedUsers userId),
    { w with subscribedUsers := setDelete w.subscribedUsers userId })

/-- Model of `unsubscribeGroup(groupId)`: `delete` answers whether the entry existed. -/
def unsubscribeGroup (groupId : ChatId) : Eff Bool := fun w =>
  (Except.ok (setHas w.subscribedGroups groupId),
    { w with subscribedGroups := setDelete w.subscribedGroups groupId })

/-- Model of `isUserSubscribed(userId)`. -/
def isUserSubscribed (userId : ChatId) : Eff Bool := fun w =>
  (Except.ok (setHas w.subscribedUsers userId), w)

/-- Model of `isGroupSubscribed(groupId)`. -/
def isGroupSubscribed (groupId : ChatId) : Eff Bool := fun w =>
  (Except.ok (setHas w.subscribedGroups groupId), w)

/-- The object returned by `getSubscribedCount()`. -/
structure SubscribedCount where
  users : Nat
  groups : Nat
  total : Nat
deriving DecidableEq, Repr

/-- Model of `getSubscribedCount()`; the `size` of a set is the length of its list. -/
def getSubscribedCount : Eff SubscribedCount := fun w =>
  (Except.ok { users := w.subscribedUsers.length
               groups := w.subscribedGroups.length
               total := w.subscribedUsers.length + w.subscribedGroups.length }, w)

/-- Worlds reachable from module load by the exported registry functions, and by any
step that leaves both subscriber sets alone (deliveries, broadcasts, the news service). -/
inductive RegistryReachable : World → Prop where
  | initial : RegistryReachable World.initial
  | subscribeUser (p : Provider) (rng : Rng) (userId : ChatId) (sendImmediate : Bool)
      (client : Option Client) (w : World) :
      RegistryReachable w →
      RegistryReachable (subscribeUser p.call rng userId sendImmediate client w).2
  | subscribeGroup (p : Provider) (rng : Rng) (groupId : ChatId) (sendImmediate : Bool)
      (client : Option Client) (w : World) :
      RegistryReachable w →
      RegistryReachable (subscribeGroup p.call rng groupId sendImmediate client w).2
  | unsubscribeUser (userId : ChatId) (w : World) :
      RegistryReachable w → RegistryReachable (unsubscribeUser userId w).2
  | unsubscribeGroup (groupId : ChatId) (w : World) :
      RegistryReachable w → RegistryReachable (unsubscribeGroup groupId w).2
  | other (w w' : World) :
      RegistryReachable w → w'.subscribedUsers = w.subscribedUsers →
      w'.subscribedGroups = w.subscribedGroups → RegistryReachable w'

/-! ## Sends and pacing waits of a trace -/

/-- What a broadcast pass does towards the transport: a text send, an image+caption send,
or a pacing wait. -/
inductive Step where
  | textSend (chatId : ChatId) (ok : Bool)
  | mediaSend (chatId : ChatId) (ok : Bool)
  | wait (ms : Nat)
deriving DecidableEq, Repr

/-- The step an event records, if it is a send or a wait. -/
def Event.step : Event → Option Step
  | Event.send c (Content.text _) ok => some (Step.textSend c ok)
  | Event.send c (Content.media _ _) ok => some (Step.mediaSend c ok)
  | Event.wait ms => some (Step.wait ms)
  | _ => none

/-- The sends and waits of a trace, in order. -/
def steps (tr : List Event) : List Step := tr.filterMap Event.step

/-- What a pass over the given chats shows when every delivery is one text send: for each
chat a resolved text send followed by a wait of 1000 ms. -/
def pacedTextSends : List ChatId → List Step
  | [] => []
  | c :: rest => Step.textSend c true :: Step.wait 1000 :: pacedTextSends rest

/-- The provider yields, at every call, a non-empty pool of items without image URL. -/
def yieldsPlainPools (p : Provider) : Prop :=
  ∀ tr, ∃ pool, p tr = Except.ok (some pool) ∧ pool ≠ [] ∧
    ∀ x ∈ pool, ∃ item, x = some item ∧ truthy item.urlToImage = false

/-- The transport never fails: every send resolves. -/
def neverFails (client : Client) : Prop :=
  ∀ tr chatId content, client tr chatId content = none

/-- A provider that always yields three items without image URL. -/
def plainProvider : Provider := constProvider [some plainItem, some plainItem, some plainItem]

/-- The world after chat "A" subscribed as an individual and chat "B" as a group, both
without immediate delivery. -/
def worldAB : World :=
  (subscribeGroup plainProvider.call zeroRng "B" false none
    (subscribeUser plainProvider.call zeroRng "A" false none World.initial).2).2

/-! ## Running effects -/

section run
variable {α β : Type}

@[simp]
theorem pure_run (a : α) (w : World) : (pure a : Eff α) w = (Except.ok a, w) := rfl

theorem bind_run (m : Eff α) (f : α → Eff β) (w : World) :
    (m >>= f) w = match m w with
      | (Except.ok a, w1) => f a w1
      | (Except.error e, w1) => (Except.error e, w1) := rfl

@[simp]
theorem throw_run (e : Err) (w : World) : (throw e : Eff α) w = (Except.error e, w) := rfl

theorem tryCatch_run (m : Eff α) (h : Err → Eff α) (w : World) :
    (tryCatch m h) w = match m w with
      | (Except.ok a, w1) => (Except.ok a, w1)
      | (Except.error e, w1) => h e w1 := rfl

@[simp]
theorem emit_run (e : Event) (w : World) : emit e w = (Except.ok (), w.log e) := rfl

@[simp]
theorem sleep_run (ms : Nat) (w : World) :
    sleep ms w = (Except.ok (), w.log (Event.wait ms)) := rfl

@[simp]
theorem getWorld_run (w : World) : getWorld w = (Except.ok w, w) := rfl

@[simp]
theorem registerFailedAttempt_run (c : ChatId) (w : World) :
    registerFailedAttempt c w = (Except.ok (), w.bump c) := rfl

@[simp]
theorem clearFailedAttempts_run (c : ChatId) (w : World) :
    clearFailedAttempts c w = (Except.ok (), w.clear c) := rfl

@[simp]
theorem mathRandom_run (rng : Rng) (w : World) :
    mathRandom rng w = (Except.ok (rng.draw w.trace), w.log (Event.random (rng.draw w.trace))) :=
  rfl

@[simp]
theorem Provider.call_run (p : Provider) (n : Nat) (w : World) :
    p.call n w = (p w.trace, w.log (Event.provider n)) := rfl

theorem sendMessage_run_ok (client : Client) (c : ChatId) (ct : Content) (w : World)
    (h : client w.trace c ct = none) :
    sendMessage client c ct w = (Except.ok (), w.log (Event.send c ct true)) := by
  simp [sendMessage, h]

theorem sendMessage_run_error (client : Client) (c : ChatId) (ct : Content) (w : World)
    (e : Err) (h : client w.trace c ct = some e) :
    sendMessage client c ct w = (Except.error e, w.log (Event.send c ct false)) := by
  simp [sendMessage, h]

end run

/-! ## World projections -/

@[simp]
theorem World.log_trace (w : World) (e : Event) : (w.log e).trace = w.trace ++ [e] := rfl
@[simp]
theorem World.log_failedAttempts (w : World) (e : Event) :
    (w.log e).failedAttempts = w.failedAttempts := rfl
@[simp]
theorem World.log_subscribedUsers (w : World) (e : Event) :
    (w.log e).subscribedUsers = w.subscribedUsers := rfl
@[simp]
theorem World.log_subscribedGroups (w : World) (e : Event) :
    (w.log e).subscribedGroups = w.subscribedGroups := rfl
@[simp]
theorem World.bump_trace (w : World) (c : ChatId) : (w.bump c).trace = w.trace := rfl
@[simp]
theorem World.bump_subscribedUsers (w : World) (c : ChatId) :
    (w.bump c).subscribedUsers = w.subscribedUsers := rfl
@[simp]
theorem World.bump_subscribedGroups (w : World) (c : ChatId) :
    (w.bump c).subscribedGroups = w.subscribedGroups := rfl
@[simp]
theorem World.bump_newsCache (w : World) (c : ChatId) :
    (w.bump c).newsCache = w.newsCache := rfl
@[simp]
theorem World.bump_failedAttempts_self (w : World) (c : ChatId) :
    (w.bump c).failedAttempts c = some ((w.failedAttempts c).getD 0 + 1) := by
  simp [World.bump]
theorem World.bump_failedAttempts_other (w : World) (c d : ChatId) (h : d ≠ c) :
    (w.bump c).failedAttempts d = w.failedAttempts d := by
  simp [World.bump, Function.update_noteq h]

@[simp]
theorem World.clear_trace (w : World) (c : ChatId) : (w.clear c).trace = w.trace := by
  unfold World.clear; split <;> rfl
@[simp]
theorem World.clear_subscribedUsers (w : World) (c : ChatId) :
    (w.clear c).subscribedUsers = w.subscribedUsers := by
  unfold World.clear; split <;> rfl
@[simp]
theorem World.clear_subscribedGroups (w : World) (c : ChatId) :
    (w.clear c).subscribedGroups = w.subscribedGroups := by
  unfold World.clear; split <;> rfl
@[simp]
theorem World.clear_newsCache (w : World) (c : ChatId) :
    (w.clear c).newsCache = w.newsCache := by
  unfold World.clear; split <;> rfl
@[simp]
theorem World.clear_failedAttempts_self (w : World) (c : ChatId) :
    (w.clear c).failedAttempts c = none := by
  unfold World.clear
  split
  · simp
  · simpa using ‹¬ (w.failedAttempts c).isSome = true›
theorem World.clear_failedAttempts_other (w : World) (c d : ChatId) (h : d ≠ c) :
    (w.clear c).failedAttempts d = w.failedAttempts d := by
  unfold World.clear
  split
  · simp [Function.update_noteq h]
  · rfl

/-! ## One delivery -/

/-- The top-level `catch` block always ends with `false` in the world `afterError`. -/
theorem onError_run (client : Client) (c : ChatId) (e : Err) (w : World) :
    sendNewsToChat.onError client c e w = (Except.ok false, afterError client c w) := by
  unfold sendNewsToChat.onError
  rcases h : client w.trace c (Content.text sendErrorNotice) with _ | e
  · have hs := sendMessage_run_ok client c (Content.text sendErrorNotice) (w.bump c) (by simpa using h)
    simp [bind_run, tryCatch_run, hs, afterError, h]
  · have hs := sendMessage_run_error client c (Content.text sendErrorNotice) (w.bump c) e (by simpa using h)
    simp [bind_run, tryCatch_run, hs, afterError, h]



/-- The code of `sendNewsToChat` never throws and computes `deliveryOutcome`. -/
theorem sendNewsToChat_eq (getTechNews : Nat → Eff Pool) (rng : Rng) (client : Client)
    (c : ChatId) (g : Bool) (w : World) :
    sendNewsToChat getTechNews rng client c g w =
      (Except.ok (deliveryOutcome getTechNews rng client c g w).1,
        (deliveryOutcome getTechNews rng client c g w).2) := by
  unfold sendNewsToChat deliveryOutcome
  rw [tryCatch_run]
  simp only [bind_run, emit_run]
  rcases getTechNews 10 (w.log (Event.deliver c g)) with ⟨e | (_ | allNews), w2⟩
  · simp only [onError_run]
  · simp only [throw_run, onError_run]
  · simp only []
    by_cases hl : allNews.length = 0
    · simp only [hl, if_true, bind_run, registerFailedAttempt_run, sendMessage, World.bump_trace,
        World.log_trace, pure_run]
      generalize client _ c (Content.text poolEmptyNotice) = r
      cases r <;> simp [onError_run]
    · simp only [hl, if_false, bind_run, mathRandom_run, World.log_trace]
      generalize (jsIndex allNews _).join = it
      rcases it with _ | item
      · simp [bind_run]
      · by_cases ht : truthy item.urlToImage = true
        · simp only [ht, if_true, bind_run, tryCatch_run, sendMessage, World.clear_trace,
            World.log_trace, pure_run, emit_run, clearFailedAttempts_run]
          generalize client _ c (Content.media _ _) = r
          cases r
          · simp
          · simp only [World.clear_trace, World.log_trace]
            generalize client _ c (Content.text _) = r2
            cases r2 <;> simp [onError_run]
        · simp only [ht, if_false, bind_run, Bool.false_eq_true, sendMessage, World.clear_trace,
            World.log_trace, pure_run, emit_run, clearFailedAttempts_run]
          generalize client _ c (Content.text _) = r2
          cases r2 <;> simp [onError_run]

/-! ## Observations on traces -/

@[simp]
theorem sendCount_nil : sendCount [] = 0 := rfl
@[simp]
theorem sendCount_append (a b : List Event) :
    sendCount (a ++ b) = sendCount a + sendCount b := by
  simp [sendCount, List.countP_append]
@[simp]
theorem sendCount_cons (e : Event) (es : List Event) :
    sendCount (e :: es) = (if e.isSend then 1 else 0) + sendCount es := by
  simp [sendCount, List.countP_cons, Nat.add_comm]

@[simp]
theorem mediaSendCount_nil : mediaSendCount [] = 0 := rfl
@[simp]
theorem mediaSendCount_append (a b : List Event) :
    mediaSendCount (a ++ b) = mediaSendCount a + mediaSendCount b := by
  simp [mediaSendCount, List.countP_append]
@[simp]
theorem mediaSendCount_cons (e : Event) (es : List Event) :
    mediaSendCount (e :: es) = (if e.isMediaSend then 1 else 0) + mediaSendCount es := by
  simp [mediaSendCount, List.countP_cons, Nat.add_comm]

@[simp]
theorem successCount_nil : successCount [] = 0 := rfl
@[simp]
theorem successCount_append (a b : List Event) :
    successCount (a ++ b) = successCount a + successCount b := by
  simp [successCount, List.countP_append]
@[simp]
theorem successCount_cons (e : Event) (es : List Event) :
    successCount (e :: es) = (if e.isDelivered then 1 else 0) + successCount es := by
  simp [successCount, List.countP_cons, Nat.add_comm]

@[simp]
theorem upstreamCalls_nil : upstreamCalls [] = 0 := rfl
@[simp]
theorem upstreamCalls_append (a b : List Event) :
    upstreamCalls (a ++ b) = upstreamCalls a + upstreamCalls b := by
  simp [upstreamCalls, List.countP_append]

@[simp]
theorem deliveries_nil : deliveries [] = [] := rfl
@[simp]
theorem deliveries_append (a b : List Event) :
    deliveries (a ++ b) = deliveries a ++ deliveries b := by
  simp [deliveries, List.filterMap_append]
@[simp]
theorem deliveries_cons (e : Event) (es : List Event) :
    deliveries (e :: es) = e.delivery.toList ++ deliveries es := by
  cases h : e.delivery <;> simp [deliveries, List.filterMap_cons, h]

theorem deliveryOutcome_call_summary (p : Provider) (rng : Rng) (client : Client) (c : ChatId)
    (g : Bool) (w : World) :
    deliveries (deliveryOutcome p.call rng client c g w).2.trace = deliveries w.trace ++ [(c, g)] ∧
    successCount (deliveryOutcome p.call rng client c g w).2.trace =
      successCount w.trace + (if (deliveryOutcome p.call rng client c g w).1 then 1 else 0) ∧
    (deliveryOutcome p.call rng client c g w).2.subscribedUsers = w.subscribedUsers ∧
    (deliveryOutcome p.call rng client c g w).2.subscribedGroups = w.subscribedGroups := by
  unfold deliveryOutcome
  simp only [Provider.call_run]
  repeat' split
  all_goals simp_all [afterError, Event.delivery, Event.isDelivered]

/-- The index drawn by `sendNewsToChat` is a natural number below `min length 5`. -/
theorem randomIndex_bounds (r : ℚ) (n : Nat) (h0 : 0 ≤ r) (h1 : r < 1) (hn : 1 ≤ n) :
    0 ≤ randomIndex r n ∧ randomIndex r n < ((min n 5 : Nat) : Int) := by
  have hm : (0 : ℚ) < ((min n 5 : Nat) : ℚ) := by
    have : 0 < min n 5 := by omega
    exact_mod_cast this
  unfold randomIndex
  constructor
  · exact Int.floor_nonneg.mpr (mul_nonneg h0 hm.le)
  · rw [Int.floor_lt]
    have : r * ((min n 5 : Nat) : ℚ) < 1 * ((min n 5 : Nat) : ℚ) :=
      mul_lt_mul_of_pos_right h1 hm
    simpa using this

/-- JavaScript indexing inside the array yields the element. -/
theorem jsIndex_of_lt {α : Type} (xs : List α) (i : Int) (h0 : 0 ≤ i) (h1 : i < xs.length) :
    ∃ x, x ∈ xs ∧ jsIndex xs i = some x := by
  have hlt : i.toNat < xs.length := by omega
  refine ⟨xs[i.toNat], List.getElem_mem _, ?_⟩
  simp [jsIndex, h0, List.getElem?_eq_getElem hlt]

@[simp]
theorem randomIndex_zero (n : Nat) : randomIndex 0 n = 0 := by
  simp [randomIndex]

/-- C3: two calls of `sendNewsToChat` in a row, both failing because the text send of a
non-empty pool is rejected, leave the failure counter at 1 (not 2): the counter is deleted
before the send, so the top-level `catch` always counts up from absent. -/
theorem sendNewsToChat_two_failed_sends_count_one :
    (sendNewsToChat (constProvider [some plainItem]).call zeroRng offlineClient "C" false
        World.initial).1 = Except.ok false ∧
      (sendNewsToChat (constProvider [some plainItem]).call zeroRng offlineClient "C" false
        World.initial).2.failedAttempts "C" = some 1 ∧
      (sendNewsToChat (constProvider [some plainItem]).call zeroRng offlineClient "C" false
        (sendNewsToChat (constProvider [some plainItem]).call zeroRng offlineClient "C" false
          World.initial).2).1 = Except.ok false ∧
      (sendNewsToChat (constProvider [some plainItem]).call zeroRng offlineClient "C" false
        (sendNewsToChat (constProvider [some plainItem]).call zeroRng offlineClient "C" false
          World.initial).2).2.failedAttempts "C" = some 1 := by
  simp [sendNewsToChat_eq, deliveryOutcome, constProvider, zeroRng, offlineClient, jsIndex,
    plainItem, truthy, afterError]

/-- C4: for every provider, random source, transport, chat and prior state (in particular
every prior value of the failure counter), whenever `sendNewsToChat` returns `true` the
failure counter of the chat is absent afterwards. -/
theorem sendNewsToChat_true_clears_counter (getTechNews : Nat → Eff Pool) (rng : Rng)
    (client : Client) (c : ChatId) (g : Bool) (w : World)
    (h : (sendNewsToChat getTechNews rng client c g w).1 = Except.ok true) :
    (sendNewsToChat getTechNews rng client c g w).2.failedAttempts c = none := by
  rw [sendNewsToChat_eq] at h ⊢
  simp only [Except.ok.injEq] at h
  revert h
  unfold deliveryOutcome
  simp only []
  repeat' split
  all_goals simp

/-- Witness for C4: a chat with one recorded failure receives a text item. -/
theorem sendNewsToChat_true_clears_counter_witness :
    (World.initial.bump "A").failedAttempts "A" = some 1 ∧
      (sendNewsToChat (constProvider [some plainItem]).call zeroRng reliableClient "A" false
        (World.initial.bump "A")).1 = Except.ok true ∧
      (sendNewsToChat (constProvider [some plainItem]).call zeroRng reliableClient "A" false
        (World.initial.bump "A")).2.failedAttempts "A" = none :=
  ⟨by decide,
    by simp [sendNewsToChat_eq, deliveryOutcome, constProvider, zeroRng, reliableClient, jsIndex,
      plainItem, truthy],
    sendNewsToChat_true_clears_counter _ _ _ _ _ _
      (by simp [sendNewsToChat_eq, deliveryOutcome, constProvider, zeroRng, reliableClient,
        jsIndex, plainItem, truthy])⟩

@[simp]
theorem localeNow_run (up : Upstream) (w : World) :
    localeNow up w
      = (Except.ok (up.localeNow w.trace), w.log (Event.localeString (up.localeNow w.trace))) :=
  rfl

@[simp]
theorem setTechnologyCache_run (news : List NewsItem) (now : Int) (w : World) :
    setTechnologyCache news now w = (Except.ok (), w.setTechnology news now) := rfl

@[simp]
theorem setLastQueryCache_run (query : String) (news : List NewsItem) (now : Int)
    (w : World) :
    setLastQueryCache query news now w = (Except.ok (), w.setLastQuery query news now) := rfl

@[simp]
theorem World.setLastQuery_trace (w : World) (q : String) (news : List NewsItem)
    (now : Int) : (w.setLastQuery q news now).trace = w.trace := rfl
@[simp]
theorem World.setTechnology_technology (w : World) (news : List NewsItem) (now : Int) :
    (w.setTechnology news now).newsCache.technology = { data := some news, timestamp := now } :=
  rfl
@[simp]
theorem World.setLastQuery_technology (w : World) (q : String) (news : List NewsItem)
    (now : Int) : (w.setLastQuery q news now).newsCache.technology = w.newsCache.technology :=
  rfl

@[simp]
theorem upstreamCalls_cons (e : Event) (es : List Event) :
    upstreamCalls (e :: es) =
      (match e with
        | Event.httpGet _ _ => 1
        | _ => 0) + upstreamCalls es := by
  cases e <;> simp [upstreamCalls, List.countP_cons, Nat.add_comm]

theorem mem_setAdd (s : List ChatId) (c x : ChatId) : x ∈ setAdd s c ↔ x = c ∨ x ∈ s := by
  unfold setAdd
  split
  · constructor
    · intro h; exact Or.inr h
    · rintro (rfl | h)
      · assumption
      · exact h
  · simp [or_comm]

theorem nodup_setAdd (s : List ChatId) (c : ChatId) (h : s.Nodup) : (setAdd s c).Nodup := by
  unfold setAdd
  split
  · exact h
  · rename_i hc
    rw [List.nodup_append]
    refine ⟨h, List.nodup_singleton c, ?_⟩
    intro a ha hb
    simp only [List.mem_singleton] at hb
    subst hb
    exact hc ha

theorem mem_setDelete (s : List ChatId) (c x : ChatId) :
    x ∈ setDelete s c ↔ x ∈ s ∧ x ≠ c := by
  simp [setDelete]

theorem setDelete_of_not_mem (s : List ChatId) (c : ChatId) (h : c ∉ s) :
    setDelete s c = s := by
  unfold setDelete
  rw [List.filter_eq_self]
  intro a ha
  simp only [bne_iff_ne, ne_eq]
  rintro rfl
  exact h ha

theorem nodup_setDelete (s : List ChatId) (c : ChatId) (h : s.Nodup) :
    (setDelete s c).Nodup :=
  h.filter _

theorem setHas_eq_true (s : List ChatId) (c : ChatId) : setHas s c = true ↔ c ∈ s := by
  simp [setHas]

theorem setHas_eq_decide (s : List ChatId) (c : ChatId) : setHas s c = decide (c ∈ s) := by
  by_cases h : c ∈ s <;> simp [setHas, h]

/-- A subscription without immediate delivery only inserts into the user set. -/
theorem subscribeUser_run_plain (getTechNews : Nat → Eff Pool) (rng : Rng) (c : ChatId)
    (sendImmediate : Bool) (client : Option Client) (w : World)
    (h : (sendImmediate && client.isSome) = false) :
    subscribeUser getTechNews rng c sendImmediate client w
      = (Except.ok true, { w with subscribedUsers := setAdd w.subscribedUsers c }) := by
  cases sendImmediate <;> cases client <;> first | rfl | simp at h

/-- A subscription with immediate delivery inserts into the user set, then delivers. -/
theorem subscribeUser_run_send (getTechNews : Nat → Eff Pool) (rng : Rng) (c : ChatId)
    (client : Client) (w : World) :
    subscribeUser getTechNews rng c true (some client) w
      = (Except.ok true,
          (deliveryOutcome getTechNews rng client c false
            { w with subscribedUsers := setAdd w.subscribedUsers c }).2) := by
  simp only [subscribeUser, bind_run, addSubscribedUser, sendNewsToChat_eq, pure_run]

/-- A subscription without immediate delivery only inserts into the group set. -/
theorem subscribeGroup_run_plain (getTechNews : Nat → Eff Pool) (rng : Rng) (c : ChatId)
    (sendImmediate : Bool) (client : Option Client) (w : World)
    (h : (sendImmediate && client.isSome) = false) :
    subscribeGroup getTechNews rng c sendImmediate client w
      = (Except.ok true, { w with subscribedGroups := setAdd w.subscribedGroups c }) := by
  cases sendImmediate <;> cases client <;> first | rfl | simp at h

/-- A subscription with immediate delivery inserts into the group set, then delivers. -/
theorem subscribeGroup_run_send (getTechNews : Nat → Eff Pool) (rng : Rng) (c : ChatId)
    (client : Client) (w : World) :
    subscribeGroup getTechNews rng c true (some client) w
      = (Except.ok true,
          (deliveryOutcome getTechNews rng client c true
            { w with subscribedGroups := setAdd w.subscribedGroups c }).2) := by
  simp only [subscribeGroup, bind_run, addSubscribedGroup, sendNewsToChat_eq, pure_run]

/-- Against an abstract provider `subscribeUser` returns `true`, inserts the chat into the
user set and leaves the group set alone, with or without immediate delivery. -/
theorem subscribeUser_call (p : Provider) (rng : Rng) (c : ChatId) (sendImmediate : Bool)
    (client : Option Client) (w : World) :
    (subscribeUser p.call rng c sendImmediate client w).1 = Except.ok true ∧
      (subscribeUser p.call rng c sendImmediate client w).2.subscribedUsers
        = setAdd w.subscribedUsers c ∧
      (subscribeUser p.call rng c sendImmediate client w).2.subscribedGroups
        = w.subscribedGroups := by
  by_cases h : (sendImmediate && client.isSome) = false
  · rw [subscribeUser_run_plain _ _ _ _ _ _ h]
    exact ⟨rfl, rfl, rfl⟩
  · have hs : sendImmediate = true := by cases sendImmediate <;> simp_all
    obtain ⟨cl, hcl⟩ : ∃ cl, client = some cl := by
      cases client with
      | none => simp at h
      | some cl => exact ⟨cl, rfl⟩
    subst hs hcl
    rw [subscribeUser_run_send]
    obtain ⟨_, _, hu, hg⟩ := deliveryOutcome_call_summary p rng cl c false
      { w with subscribedUsers := setAdd w.subscribedUsers c }
    exact ⟨rfl, hu, hg⟩

/-- Against an abstract provider `subscribeGroup` returns `true`, inserts the chat into the
group set and leaves the user set alone, with or without immediate delivery. -/
theorem subscribeGroup_call (p : Provider) (rng : Rng) (c : ChatId) (sendImmediate : Bool)
    (client : Option Client) (w : World) :
    (subscribeGroup p.call rng c sendImmediate client w).1 = Except.ok true ∧
      (subscribeGroup p.call rng c sendImmediate client w).2.subscribedGroups
        = setAdd w.subscribedGroups c ∧
      (subscribeGroup p.call rng c sendImmediate client w).2.subscribedUsers
        = w.subscribedUsers := by
  by_cases h : (sendImmediate && client.isSome) = false
  · rw [subscribeGroup_run_plain _ _ _ _ _ _ h]
    exact ⟨rfl, rfl, rfl⟩
  · have hs : sendImmediate = true := by cases sendImmediate <;> simp_all
    obtain ⟨cl, hcl⟩ : ∃ cl, client = some cl := by
      cases client with
      | none => simp at h
      | some cl => exact ⟨cl, rfl⟩
    subst hs hcl
    rw [subscribeGroup_run_send]
    obtain ⟨_, _, hu, hg⟩ := deliveryOutcome_call_summary p rng cl c true
      { w with subscribedGroups := setAdd w.subscribedGroups c }
    exact ⟨rfl, hg, hu⟩

/-- C12: for every chat and both kinds, `unsubscribeUser` / `unsubscribeGroup` returns
`true` exactly when the chat was a member of the selected set; afterwards the chat is not a
member (`isUserSubscribed` / `isGroupSubscribed` returns `false`) and every other member is
kept; called on a non-member it returns `false` and `getSubscribedCount` returns the same
counts as before. -/
theorem unsubscribe_reports_membership (chatId : ChatId) (w : World) :
    ((unsubscribeUser chatId w).1 = Except.ok (decide (chatId ∈ w.subscribedUsers)) ∧
      (isUserSubscribed chatId (unsubscribeUser chatId w).2).1 = Except.ok false ∧
      (∀ x, x ∈ (unsubscribeUser chatId w).2.subscribedUsers
        ↔ x ∈ w.subscribedUsers ∧ x ≠ chatId) ∧
      (chatId ∉ w.subscribedUsers →
        (unsubscribeUser chatId w).1 = Except.ok false ∧
        (getSubscribedCount (unsubscribeUser chatId w).2).1 = (getSubscribedCount w).1)) ∧
    ((unsubscribeGroup chatId w).1 = Except.ok (decide (chatId ∈ w.subscribedGroups)) ∧
      (isGroupSubscribed chatId (unsubscribeGroup chatId w).2).1 = Except.ok false ∧
      (∀ x, x ∈ (unsubscribeGroup chatId w).2.subscribedGroups
        ↔ x ∈ w.subscribedGroups ∧ x ≠ chatId) ∧
      (chatId ∉ w.subscribedGroups →
        (unsubscribeGroup chatId w).1 = Except.ok false ∧
        (getSubscribedCount (unsubscribeGroup chatId w).2).1 = (getSubscribedCount w).1)) := by
  have hnot : ∀ s : List ChatId, setHas (setDelete s chatId) chatId = false := by
    intro s
    rw [setHas_eq_decide]
    simp [mem_setDelete]
  refine ⟨⟨?_, ?_, ?_, ?_⟩, ⟨?_, ?_, ?_, ?_⟩⟩
  · simp only [unsubscribeUser, setHas_eq_decide]
  · simp only [isUserSubscribed, unsubscribeUser, hnot]
  · intro x; exact mem_setDelete _ _ _
  · intro h
    simp only [unsubscribeUser, getSubscribedCount, setHas_eq_decide, h, decide_False,
      setDelete_of_not_mem _ _ h, and_self]
  · simp only [unsubscribeGroup, setHas_eq_decide]
  · simp only [isGroupSubscribed, unsubscribeGroup, hnot]
  · intro x; exact mem_setDelete _ _ _
  · intro h
    simp only [unsubscribeGroup, getSubscribedCount, setHas_eq_decide, h, decide_False,
      setDelete_of_not_mem _ _ h, and_self]

/-- Witness for C12: in the world with user "A" and group "B", "B" is no user and "A" no
group, so unsubscribing them there returns `false` and keeps the counts; unsubscribing
user "A" returns `true`. -/
theorem unsubscribe_reports_membership_witness :
    "B" ∉ worldAB.subscribedUsers ∧ "A" ∉ worldAB.subscribedGroups ∧
      ((unsubscribeUser "B" worldAB).1 = Except.ok false ∧
        (getSubscribedCount (unsubscribeUser "B" worldAB).2).1
          = (getSubscribedCount worldAB).1) ∧
      ((unsubscribeGroup "A" worldAB).1 = Except.ok false ∧
        (getSubscribedCount (unsubscribeGroup "A" worldAB).2).1
          = (getSubscribedCount worldAB).1) ∧
      (unsubscribeUser "A" worldAB).1 = Except.ok (decide ("A" ∈ worldAB.subscribedUsers)) ∧
      decide ("A" ∈ worldAB.subscribedUsers) = true :=
  ⟨by decide, by decide,
    (unsubscribe_reports_membership "B" worldAB).1.2.2.2 (by decide),
    (unsubscribe_reports_membership "A" worldAB).2.2.2.2 (by decide),
    (unsubscribe_reports_membership "A" worldAB).1.1,
    by decide⟩

/-- In every reachable world both subscriber lists are free of duplicates. -/
theorem RegistryReachable.nodup (w : World) (h : RegistryReachable w) :
    w.subscribedUsers.Nodup ∧ w.subscribedGroups.Nodup := by
  induction h with
  | initial => exact ⟨List.nodup_nil, List.nodup_nil⟩
  | subscribeUser p rng c si client w _ ih =>
    obtain ⟨_, hu, hg⟩ := subscribeUser_call p rng c si client w
    rw [hu, hg]
    exact ⟨nodup_setAdd _ _ ih.1, ih.2⟩
  | subscribeGroup p rng c si client w _ ih =>
    obtain ⟨_, hg, hu⟩ := subscribeGroup_call p rng c si client w
    rw [hu, hg]
    exact ⟨ih.1, nodup_setAdd _ _ ih.2⟩
  | unsubscribeUser c w _ ih => exact ⟨nodup_setDelete _ _ ih.1, ih.2⟩
  | unsubscribeGroup c w _ ih => exact ⟨ih.1, nodup_setDelete _ _ ih.2⟩
  | other w w' _ hu hg ih => rw [hu, hg]; exact ih

/-- C13: in every state reachable through subscribe and unsubscribe calls (and steps that
leave the sets alone), `getSubscribedCount` returns, without changing the state,
`users` = the number of distinct subscribed individual chats, `groups` = the number of
distinct subscribed group chats, and `total = users + groups`. -/
theorem getSubscribedCount_counts_distinct_chats (w : World) (h : RegistryReachable w) :
    ∃ counts, getSubscribedCount w = (Except.ok counts, w) ∧
      counts.users = w.subscribedUsers.toFinset.card ∧
      counts.groups = w.subscribedGroups.toFinset.card ∧
      counts.total = counts.users + counts.groups := by
  obtain ⟨hu, hg⟩ := RegistryReachable.nodup w h
  refine ⟨_, rfl, ?_, ?_, rfl⟩
  · exact (List.toFinset_card_of_nodup hu).symm
  · exact (List.toFinset_card_of_nodup hg).symm

/-- Witness for C13: after "A" subscribed as a user and "B" as a group the counts are
1, 1 and 2. -/
theorem getSubscribedCount_counts_distinct_chats_witness :
    RegistryReachable worldAB ∧
      (getSubscribedCount worldAB).1 = Except.ok { users := 1, groups := 1, total := 2 } ∧
      ∃ counts, getSubscribedCount worldAB = (Except.ok counts, worldAB) ∧
        counts.users = worldAB.subscribedUsers.toFinset.card ∧
        counts.groups = worldAB.subscribedGroups.toFinset.card ∧
        counts.total = counts.users + counts.groups :=
  have hr : RegistryReachable worldAB :=
    RegistryReachable.subscribeGroup plainProvider zeroRng "B" false none _
      (RegistryReachable.subscribeUser plainProvider zeroRng "A" false none _
        RegistryReachable.initial)
  ⟨hr, rfl, getSubscribedCount_counts_distinct_chats worldAB hr⟩

/-! ## A pass without images and without transport failures -/

@[simp]
theorem steps_nil : steps [] = [] := rfl

@[simp]
theorem steps_append (a b : List Event) : steps (a ++ b) = steps a ++ steps b := by
  simp [steps, List.filterMap_append]

@[simp]
theorem steps_cons (e : Event) (es : List Event) :
    steps (e :: es) = e.step.toList ++ steps es := by
  cases h : e.step <;> simp [steps, List.filterMap_cons, h]

theorem pacedTextSends_append (a b : List ChatId) :
    pacedTextSends (a ++ b) = pacedTextSends a ++ pacedTextSends b := by
  induction a with
  | nil => rfl
  | cons c rest ih => simp [pacedTextSends, ih]

/-- With a pool of items without image and a transport that never fails, one delivery
returns `true` and its only send is one resolved text send to the chat. -/
theorem deliveryOutcome_plain (p : Provider) (rng : Rng) (client : Client) (c : ChatId)
    (g : Bool) (w : World) (hp : yieldsPlainPools p) (hc : neverFails client) :
    (deliveryOutcome p.call rng client c g w).1 = true ∧
      steps (deliveryOutcome p.call rng client c g w).2.trace
        = steps w.trace ++ [Step.textSend c true] := by
  obtain ⟨pool, hpool, hne, hall⟩ := hp (w.trace ++ [Event.deliver c g])
  have hlen : ¬ pool.length = 0 := fun h => hne (List.length_eq_zero.mp h)
  have hN : 1 ≤ pool.length := by omega
  obtain ⟨hlo, hhi⟩ := randomIndex_bounds
    (rng.draw (w.trace ++ [Event.deliver c g] ++ [Event.provider 10])) pool.length
    (rng.draw_nonneg _) (rng.draw_lt_one _) hN
  have hlt : randomIndex (rng.draw (w.trace ++ [Event.deliver c g] ++ [Event.provider 10]))
      pool.length < (pool.length : Int) := by
    have : ((min pool.length 5 : Nat) : Int) ≤ (pool.length : Int) := by
      exact_mod_cast Nat.min_le_left _ _
    omega
  obtain ⟨x, hx, hidx⟩ := jsIndex_of_lt pool _ hlo hlt
  obtain ⟨item, rfl, himg⟩ := hall x hx
  have hj : (some (some item) : Option (Option NewsItem)).join = some item := rfl
  have hsend : ∀ tr chatId content, client tr chatId content = none := hc
  unfold deliveryOutcome
  simp only [Provider.call_run, World.log_trace, hpool, hlen, if_false, hidx, hj, himg,
    Bool.false_eq_true, hsend]
  simp [Event.step]

/-- With pools of items without image and a transport that never fails, the loop of
`broadcastNews` over one set counts every member as sent and shows, for each member in
order, one resolved text send followed by one wait of 1000 ms. -/
theorem broadcastLoop_plain (p : Provider) (rng : Rng) (client : Client) (g : Bool)
    (hp : yieldsPlainPools p) (hc : neverFails client) :
    ∀ (l : List ChatId) (s e : Nat) (w : World),
      ∃ w', broadcastLoop p.call rng client g l (s, e) w
          = (Except.ok (s + l.length, e), w') ∧
        steps w'.trace = steps w.trace ++ pacedTextSends l ∧
        successCount w'.trace = successCount w.trace + l.length ∧
        deliveries w'.trace = deliveries w.trace ++ l.map (fun c => (c, g)) := by
  intro l
  induction l with
  | nil =>
    intro s e w
    exact ⟨w, by simp [broadcastLoop], by simp [pacedTextSends], by simp, by simp⟩
  | cons c rest ih =>
    intro s e w
    obtain ⟨hb, hst⟩ := deliveryOutcome_plain p rng client c g w hp hc
    obtain ⟨hd, hs, _, _⟩ := deliveryOutcome_call_summary p rng client c g w
    obtain ⟨w', hrun, hsteps, hsucc, hdel⟩ :=
      ih (s + 1) e ((deliveryOutcome p.call rng client c g w).2.log (Event.wait 1000))
    refine ⟨w', ?_, ?_, ?_, ?_⟩
    · simp only [broadcastLoop, bind_run, tryCatch_run, sendNewsToChat_eq, sleep_run, pure_run,
        hb, if_true]
      rw [hrun]
      simp
      omega
    · simp [hsteps, hst, Event.step, pacedTextSends]
    · simp [hsucc, hs, hb, Event.isDelivered]; omega
    · simp [hdel, hd, Event.delivery]

/-- C14: for every pair of subscriber sets, when the provider yields non-empty pools whose
items carry no image URL and the transport never fails, one `broadcastNews` pass returns the
total number of subscribers; its sends and waits are, for each individual chat in order and
then for each group chat in order, exactly one resolved text send to that chat followed by
one pacing wait of 1000 ms (also after the last chat of each set), and nothing else; every
call of `sendNewsToChat` in the pass returned `true`. -/
theorem broadcastNews_plain_pass (p : Provider) (rng : Rng) (client : Client) (w : World)
    (hp : yieldsPlainPools p) (hc : neverFails client) :
    ∃ w', broadcastNews p.call rng client w
        = (Except.ok (w.subscribedUsers.length + w.subscribedGroups.length), w') ∧
      steps w'.trace = steps w.trace ++
        (pacedTextSends w.subscribedUsers ++ pacedTextSends w.subscribedGroups) ∧
      deliveries w'.trace = deliveries w.trace ++
        (w.subscribedUsers.map (fun c => (c, false)) ++
          w.subscribedGroups.map (fun c => (c, true))) ∧
      successCount w'.trace
        = successCount w.trace + (w.subscribedUsers.length + w.subscribedGroups.length) := by
  by_cases h0 : w.subscribedUsers.length + w.subscribedGroups.length = 0
  · have hu : w.subscribedUsers = [] := List.length_eq_zero.mp (by omega)
    have hg : w.subscribedGroups = [] := List.length_eq_zero.mp (by omega)
    refine ⟨w, ?_, ?_, ?_, ?_⟩
    · simp only [broadcastNews, bind_run, getWorld_run, h0, ↓reduceIte, pure_run]
    · simp [hu, hg, pacedTextSends]
    · simp [hu, hg]
    · simp [hu, hg]
  · obtain ⟨w1, hrun1, hst1, hs1, hd1⟩ :=
      broadcastLoop_plain p rng client false hp hc w.subscribedUsers 0 0 w
    obtain ⟨w2, hrun2, hst2, hs2, hd2⟩ :=
      broadcastLoop_plain p rng client true hp hc w.subscribedGroups
        (0 + w.subscribedUsers.length) 0 w1
    refine ⟨w2, ?_, ?_, ?_, ?_⟩
    · simp only [broadcastNews, bind_run, getWorld_run, h0, if_false]
      rw [hrun1]
      simp only []
      rw [hrun2]
      simp
    · rw [hst2, hst1, List.append_assoc]
    · rw [hd2, hd1, List.append_assoc]
    · rw [hs2, hs1]; omega

/-- The provider `plainProvider` yields pools without image at every call. -/
theorem plainProvider_yieldsPlainPools : yieldsPlainPools plainProvider := by
  intro tr
  refine ⟨[some plainItem, some plainItem, some plainItem], rfl, by simp, ?_⟩
  intro x hx
  simp only [List.mem_cons, List.mem_singleton, List.not_mem_nil, or_false, or_self] at hx
  exact ⟨plainItem, hx, rfl⟩

/-- Witness for C14: individual "A" and group "B", three items without image. The pass
returns 2 and its sends and waits are: text to "A", wait, text to "B", wait. -/
theorem broadcastNews_plain_pass_witness :
    yieldsPlainPools plainProvider ∧ neverFails reliableClient ∧
      (broadcastNews plainProvider.call zeroRng reliableClient worldAB).1 = Except.ok 2 ∧
      steps (broadcastNews plainProvider.call zeroRng reliableClient worldAB).2.trace
        = [Step.textSend "A" true, Step.wait 1000, Step.textSend "B" true, Step.wait 1000] := by
  obtain ⟨w', hrun, hsteps, _, _⟩ :=
    broadcastNews_plain_pass plainProvider zeroRng reliableClient worldAB
      plainProvider_yieldsPlainPools (fun _ _ _ => rfl)
  refine ⟨plainProvider_yieldsPlainPools, fun _ _ _ => rfl, ?_, ?_⟩
  · rw [hrun]; rfl
  · rw [hrun]; simp only []; rw [hsteps]; rfl

/-- C15: the registry operations of one kind touch only the set of that kind. For every
chat and state, `subscribeUser` without immediate delivery (`sendImmediate` false or no
client), `unsubscribeUser` and `isUserSubscribed` leave the group set and every failure
counter unchanged, and symmetrically `subscribeGroup`, `unsubscribeGroup` and
`isGroupSubscribed` leave the user set and every failure counter unchanged; in particular
unsubscribing keeps the failure counter of the chat; and after `subscribeUser` and
`subscribeGroup` of the same chat it is a member of both sets. -/
theorem registry_operations_touch_one_set (getTechNews : Nat → Eff Pool) (rng : Rng)
    (chatId : ChatId) (sendImmediate : Bool) (client : Option Client) (w : World)
    (h : (sendImmediate && client.isSome) = false) :
    ((subscribeUser getTechNews rng chatId sendImmediate client w).2.subscribedGroups
        = w.subscribedGroups ∧
      (subscribeUser getTechNews rng chatId sendImmediate client w).2.failedAttempts
        = w.failedAttempts ∧
      (unsubscribeUser chatId w).2.subscribedGroups = w.subscribedGroups ∧
      (unsubscribeUser chatId w).2.failedAttempts = w.failedAttempts ∧
      (isUserSubscribed chatId w).2 = w) ∧
    ((subscribeGroup getTechNews rng chatId sendImmediate client w).2.subscribedUsers
        = w.subscribedUsers ∧
      (subscribeGroup getTechNews rng chatId sendImmediate client w).2.failedAttempts
        = w.failedAttempts ∧
      (unsubscribeGroup chatId w).2.subscribedUsers = w.subscribedUsers ∧
      (unsubscribeGroup chatId w).2.failedAttempts = w.failedAttempts ∧
      (isGroupSubscribed chatId w).2 = w) ∧
    ((unsubscribeUser chatId w).2.failedAttempts chatId = w.failedAttempts chatId ∧
      (unsubscribeGroup chatId w).2.failedAttempts chatId = w.failedAttempts chatId) ∧
    ((isUserSubscribed chatId
        (subscribeGroup getTechNews rng chatId sendImmediate client
          (subscribeUser getTechNews rng chatId sendImmediate client w).2).2).1
        = Except.ok true ∧
      (isGroupSubscribed chatId
        (subscribeGroup getTechNews rng chatId sendImmediate client
          (subscribeUser getTechNews rng chatId sendImmediate client w).2).2).1
        = Except.ok true) := by
  have hu := subscribeUser_run_plain getTechNews rng chatId sendImmediate client w h
  have hg := subscribeGroup_run_plain getTechNews rng chatId sendImmediate client w h
  have hug := subscribeGroup_run_plain getTechNews rng chatId sendImmediate client
    (subscribeUser getTechNews rng chatId sendImmediate client w).2 h
  refine ⟨⟨?_, ?_, rfl, rfl, rfl⟩, ⟨?_, ?_, rfl, rfl, rfl⟩, ⟨rfl, rfl⟩, ⟨?_, ?_⟩⟩
  · rw [hu]
  · rw [hu]
  · rw [hg]
  · rw [hg]
  · rw [hug, hu]
    simp only [isUserSubscribed]
    rw [(setHas_eq_true _ _).mpr ((mem_setAdd _ _ _).mpr (Or.inl rfl))]
  · rw [hug]
    simp only [isGroupSubscribed]
    rw [(setHas_eq_true _ _).mpr ((mem_setAdd _ _ _).mpr (Or.inl rfl))]

/-- Witness for C15: chat "A" has one recorded failure and is subscribed as a user;
unsubscribing it keeps the counter at 1, and "A" can be subscribed to both sets. -/
theorem registry_operations_touch_one_set_witness :
    (worldAB.bump "A").failedAttempts "A" = some 1 ∧
      (unsubscribeUser "A" (worldAB.bump "A")).1 = Except.ok true ∧
      (unsubscribeUser "A" (worldAB.bump "A")).2.failedAttempts "A" = some 1 ∧
      (unsubscribeUser "A" (worldAB.bump "A")).2.subscribedGroups = ["B"] ∧
      ((isUserSubscribed "A"
          (subscribeGroup plainProvider.call zeroRng "A" false none
            (subscribeUser plainProvider.call zeroRng "A" false none
              (worldAB.bump "A")).2).2).1 = Except.ok true ∧
        (isGroupSubscribed "A"
          (subscribeGroup plainProvider.call zeroRng "A" false none
            (subscribeUser plainProvider.call zeroRng "A" false none
              (worldAB.bump "A")).2).2).1 = Except.ok true) :=
  ⟨by decide, rfl,
    ((registry_operations_touch_one_set plainProvider.call zeroRng "A" false none
      (worldAB.bump "A") rfl).2.2.1.1).trans (by decide),
    ((registry_operations_touch_one_set plainProvider.call zeroRng "A" false none
      (worldAB.bump "A") rfl).1.2.2.1).trans (by decide),
    (registry_operations_touch_one_set plainProvider.call zeroRng "A" false none
      (worldAB.bump "A") rfl).2.2.2⟩

end ChatIA
